import Mathlib

/-
Verification of the distributed mesh refinement driver
(cpp/dolfinx/refinement/refine.h) against its natural-language
specification. The data model and the operations below are a shallow
embedding of the code in refine.h; parts of the repository that the
driver calls but that are not part of the refinement sources
(cell type metadata, the per-rule refinement data computation, mesh
construction, global renumbering) are modelled from the specification
and are marked as such in their doc comments.
-/

set_option autoImplicit false

namespace DolfinxRefinement

/-- Modelled from the spec: the mesh cell types of the library
(mesh/cell_types.h is not under src/). The refinement spec mentions
segment (interval), triangle and tetrahedron as the simplex types and
treats every other cell type as unsupported. -/
inductive CellType where
  | point
  | interval
  | triangle
  | quadrilateral
  | tetrahedron
  | pyramid
  | prism
  | hexahedron
deriving DecidableEq

/-- Modelled from the spec: the ghost mode of a mesh, read by
create_maintain_coarse_partitioner at refine.h line 28 (the source
expression there, auto ghostmode = msh., is left incomplete; the
comparison on line 29 is against mesh::GhostMode::none). -/
inductive GhostMode where
  | none
  | shared_facet
deriving DecidableEq

/-- Modelled from the spec: mesh::is_simplex (mesh/cell_types.h, not
under src/). Spec 4.4: the simplex cell types are segment (interval),
triangle and tetrahedron; any other cell type is rejected. -/
def is_simplex (ct : CellType) : Bool :=
  ct = CellType.interval || ct = CellType.triangle || ct = CellType.tetrahedron

/-- Modelled from the spec: mesh::num_cell_vertices (mesh/cell_types.h,
not under src/): the number of vertices of each cell type (segment 2,
triangle 3, tetrahedron 4, and the standard counts for the
non-simplicial types). -/
def num_cell_vertices : CellType → Nat
  | CellType.point => 1
  | CellType.interval => 2
  | CellType.triangle => 3
  | CellType.quadrilateral => 4
  | CellType.tetrahedron => 4
  | CellType.pyramid => 5
  | CellType.prism => 6
  | CellType.hexahedron => 8

/-- graph::AdjacencyList flattened storage: the data array and the
offsets array (node i owns the entries in [offsets i, offsets (i+1))). -/
structure AdjacencyList where
  array : List Nat
  offsets : List Nat
deriving DecidableEq

/-- The mesh data the refinement driver in refine.h actually reads: the
cell type and dimension metadata (through the topology), the ghost mode
(read by create_maintain_coarse_partitioner), the communicator, the
coordinate element of the geometry, and the local edge count (the edge
set over which uniform refinement marks every edge). Communicators and
coordinate elements are identified by an id. -/
structure Mesh where
  cell_type : CellType
  ghost_mode : GhostMode
  comm : Nat
  cmap : Nat
  num_edges : Nat
deriving DecidableEq

/-- refine.h lines 31-44: the partitioner closure returned by
create_maintain_coarse_partitioner for ghost mode none. It reads the
front element of cell_types and of cells, computes
num_cells = cells.front().size() / num_cell_vertices(cell_types.front()),
fills the destinations with the rank of the calling worker, and fills
the offsets 0, 1, ..., num_cells (std::iota on a vector of size
num_cells + 1). Calling front() on an empty vector has no defined
result, embedded as Option.none. -/
def maintain_coarse_ghost_none (comm_rank : Nat) (cell_types : List CellType)
    (cells : List (List Nat)) : Option AdjacencyList :=
  match cell_types, cells with
  | ct :: _, c :: _ =>
    let num_cells := c.length / num_cell_vertices ct
    Option.some
      { array := List.replicate num_cells comm_rank
      , offsets := List.range (num_cells + 1) }
  | _, _ => Option.none

/-- refine.h lines 47-63: the partitioner closure returned by
create_maintain_coarse_partitioner for the ghosted case. It performs
the identical front-based destination computation; the intervening
statement compute_destination_ranks(comm, ) on line 59 is syntactically
incomplete in the source and its value is discarded, so the returned
adjacency list is the same as in the ghost-mode-none branch. -/
def maintain_coarse_ghosted (comm_rank : Nat) (cell_types : List CellType)
    (cells : List (List Nat)) : Option AdjacencyList :=
  match cell_types, cells with
  | ct :: _, c :: _ =>
    let num_cells := c.length / num_cell_vertices ct
    Option.some
      { array := List.replicate num_cells comm_rank
      , offsets := List.range (num_cells + 1) }
  | _, _ => Option.none

/-- refine.h lines 25-65: create_maintain_coarse_partitioner branches on
the ghost mode of the mesh and returns one of the two closures above.
The closure arguments are the rank of the calling worker (the source
closures call dolfinx::MPI::rank on the communicator), the ignored
nparts, the cell type batches and the cell connectivity batches. -/
def create_maintain_coarse_partitioner (msh : Mesh) (comm_rank : Nat)
    (nparts : Nat) (cell_types : List CellType) (cells : List (List Nat)) :
    Option AdjacencyList :=
  match msh.ghost_mode, nparts with
  | GhostMode.none, _ => maintain_coarse_ghost_none comm_rank cell_types cells
  | GhostMode.shared_facet, _ => maintain_coarse_ghosted comm_rank cell_types cells

/-- refine.h line 123: the default fallback lambda inside refine builds
an adjacency list from the ENTIRE cells argument
(AdjacencyList(cells): one node per batch, data the concatenation of
all batches) before passing it to compute_destination_ranks; it never
reads cell_types. This definition embeds the adjacency list that the
lambda builds from its arguments. -/
def fallback_built_adjacency (cells : List (List Nat)) : AdjacencyList :=
  { array := cells.flatten
  , offsets := (cells.map List.length).scanl (fun a b => a + b) 0 }

/-- refine.h lines 117-124: the default fallback partitioner lambda used
by refine when the partitioner argument is absent. Its only statement is
a call compute_destination_ranks(comm, AdjacencyList(cells), ) whose
final argument is missing in the source (compute_destination_ranks is
not part of the refinement sources), and the lambda has no return
statement: it yields no defined adjacency list. -/
def refine_default_fallback (comm_rank : Nat) (nparts : Nat)
    (cell_types : List CellType) (cells : List (List Nat)) :
    Option AdjacencyList :=
  match comm_rank, nparts, cell_types, cells with
  | _, _, _, _ => Option.none

/-- Modelled from the spec (section 6): the provenance option enum
NONE, PARENT_CELL, PARENT_FACET, PARENT_CELL_AND_FACET
(refinement/option.h is not under src/). -/
inductive RefinementOption where
  | none
  | parent_cell
  | parent_facet
  | parent_cell_and_facet
deriving DecidableEq

/-- Whether the provenance option selects parent-cell indices. -/
def selects_parent_cell : RefinementOption → Bool
  | RefinementOption.parent_cell => true
  | RefinementOption.parent_cell_and_facet => true
  | _ => false

/-- Whether the provenance option selects parent-facet indices. -/
def selects_parent_facet : RefinementOption → Bool
  | RefinementOption.parent_facet => true
  | RefinementOption.parent_cell_and_facet => true
  | _ => false

/-- The two refinement rule sets of the spec (section 2): interval rules
for 1D meshes and plaza rules for 2D/3D simplicial meshes, selected by
the ternary at refine.h lines 112-114. -/
inductive RuleSet where
  | interval
  | plaza
deriving DecidableEq

/-- The refinement data produced for the driver: which rule set produced
it, the set of edges actually treated as marked, the refined cell
connectivity (abstracted), and the optional provenance arrays. -/
structure RefinementData where
  rules : RuleSet
  marked : List Nat
  cell_adj : List Nat
  parent_cell : Option (List Nat)
  parent_facet : Option (List Nat)
deriving DecidableEq

/-- Modelled from the spec: interval::compute_refinement_data and
plaza::compute_refinement_data (interval.h and plaza.h are not under
src/). Spec 4.4: if the edges argument is absent, uniform refinement is
performed and every edge of the mesh is treated as marked; the
provenance arrays are computed exactly when the option selects them and
are absent only under an explicit none option. The contents of the
connectivity and provenance arrays are abstracted as functions of the
finalized mark set; only their presence and the mark set itself are
specified at the driver level. -/
def compute_refinement_data (rules : RuleSet) (msh : Mesh)
    (edges : Option (List Nat)) (opt : RefinementOption) : RefinementData :=
  let marked :=
    match edges with
    | Option.none => List.range msh.num_edges
    | Option.some e => e
  { rules := rules
  , marked := marked
  , cell_adj := marked
  , parent_cell :=
      if selects_parent_cell opt then Option.some marked else Option.none
  , parent_facet :=
      if selects_parent_facet opt then Option.some marked else Option.none }

/-- The only error the driver raises locally: refine.h lines 108-109
throw a runtime error when the cell type is not a simplex. -/
inductive RefineError where
  | unsupportedTopology
deriving DecidableEq

/-- The computation and communication steps the driver performs after
the cell type check: the per-rule refinement data computation
(refine.h lines 111-114) and the collective mesh construction
(refine.h lines 126-128). -/
inductive Step where
  | computeRefinementData
  | createMesh
deriving DecidableEq

/-- Which partitioner the driver hands to create_mesh: the caller
supplied one, or the default fallback lambda of refine.h lines 117-124
(the one whose body is the incomplete compute_destination_ranks call). -/
inductive PartitionerUsed where
  | supplied
  | fallbackComputeDestinationRanks
deriving DecidableEq

/-- The type of caller supplied partitioner functions: rank of the
calling worker, number of parts, cell type batches, cell batches. -/
def PartitionFn : Type :=
  Nat → Nat → List CellType → List (List Nat) → Option AdjacencyList

/-- The observable result of a successful refine call: the communicator
and coordinate element the output mesh is constructed with
(refine.h lines 126-128 pass mesh.comm() and mesh.geometry().cmap() to
create_mesh, which is modelled from the spec as constructing the output
mesh on exactly that communicator with exactly that coordinate
element), the refinement data, the returned provenance arrays, and
which partitioner was handed to create_mesh. -/
structure RefineResult where
  mesh_comm : Nat
  mesh_cmap : Nat
  data : RefinementData
  parent_cell : Option (List Nat)
  parent_facet : Option (List Nat)
  partitioner_used : PartitionerUsed
deriving DecidableEq

/-- refine.h lines 112-114: the rule set selection, a single ternary on
the cell type evaluated once at the top of the driver: interval rules
exactly when the cell type is interval, plaza rules otherwise. -/
def refine_rules_for (ct : CellType) : RuleSet :=
  if ct = CellType.interval then RuleSet.interval else RuleSet.plaza

/-- refine.h lines 111-138, the successful path of the driver: the rule
set is selected once from the cell type, the refinement data is
computed, and the output mesh is constructed on the input communicator
with the input coordinate element (refine.h lines 126-128), handing
create_mesh the supplied partitioner or, when absent, the default
fallback lambda of lines 117-124; the provenance arrays of the data are
returned unchanged (line 138). -/
def refine_ok_result (msh : Mesh) (edges : Option (List Nat))
    (partitioner : Option PartitionFn) (opt : RefinementOption) :
    RefineResult :=
  let data := compute_refinement_data (refine_rules_for msh.cell_type) msh edges opt
  { mesh_comm := msh.comm
  , mesh_cmap := msh.cmap
  , data := data
  , parent_cell := data.parent_cell
  , parent_facet := data.parent_facet
  , partitioner_used :=
      match partitioner with
      | Option.some _ => PartitionerUsed.supplied
      | Option.none => PartitionerUsed.fallbackComputeDestinationRanks }

/-- refine.h lines 97-139: the refinement driver. It first checks that
the cell type is a simplex (lines 108-109) and raises
unsupportedTopology otherwise, before any computation or communication
step is performed; on the successful path it produces refine_ok_result.
The returned step list records the computation and communication
performed. -/
def refine (msh : Mesh) (edges : Option (List Nat))
    (partitioner : Option PartitionFn) (opt : RefinementOption) :
    Except RefineError RefineResult × List Step :=
  if is_simplex msh.cell_type then
    (Except.ok (refine_ok_result msh edges partitioner opt),
     [Step.computeRefinementData, Step.createMesh])
  else
    (Except.error RefineError.unsupportedTopology, [])

/-- Modelled from the spec (section 4.3 and data model): an edge is an
unordered pair of global vertex indices; normalize to the sorted pair. -/
def norm_edge (e : Nat × Nat) : Nat × Nat := (min e.1 e.2, max e.1 e.2)

/-- Modelled from the spec (section 4.3): the distinct globally marked
edges, each physical edge counted once however many workers or cells
report it. -/
def distinct_marked_edges (marked : List (Nat × Nat)) : List (Nat × Nat) :=
  (marked.map norm_edge).dedup

/-- Modelled from the spec (section 4.3): global renumbering assigns to
each distinct globally marked edge exactly one new global vertex index,
the new indices following contiguously after the old vertex indices
0, ..., n - 1. -/
def assign_new_vertices (n : Nat) (marked : List (Nat × Nat)) :
    List ((Nat × Nat) × Nat) :=
  (distinct_marked_edges marked).enum.map (fun p => (p.2, n + p.1))

/-- Modelled from the spec (section 4.3): the global vertex count of the
refined mesh, old count plus one midpoint per distinct marked edge. -/
def new_vertex_count (n : Nat) (marked : List (Nat × Nat)) : Nat :=
  n + (distinct_marked_edges marked).length

/-- A triangle mesh without ghosts, used as a concrete instance. -/
def triMesh : Mesh :=
  { cell_type := CellType.triangle
  , ghost_mode := GhostMode.none
  , comm := 0
  , cmap := 7
  , num_edges := 3 }

/-- A quadrilateral mesh, a concrete non-simplex instance. -/
def quadMesh : Mesh :=
  { cell_type := CellType.quadrilateral
  , ghost_mode := GhostMode.none
  , comm := 2
  , cmap := 4
  , num_edges := 4 }

/-- A tetrahedron mesh with ghost cells, a concrete ghosted instance. -/
def ghostedTetMesh : Mesh :=
  { cell_type := CellType.tetrahedron
  , ghost_mode := GhostMode.shared_facet
  , comm := 1
  , cmap := 3
  , num_edges := 6 }

/-- An interval (segment) mesh, a concrete 1D instance. -/
def intervalMesh : Mesh :=
  { cell_type := CellType.interval
  , ghost_mode := GhostMode.none
  , comm := 0
  , cmap := 1
  , num_edges := 1 }

/-- Claim C1: for every input mesh whose cell type is not a simplex
(segment, triangle, tetrahedron), refine raises the
unsupported-topology error with no refinement computation or
communication step performed and no mesh constructed, and for every
simplex mesh this error branch is not taken. -/
theorem refine_unsupported_topology_check (msh : Mesh)
    (edges : Option (List Nat)) (p : Option PartitionFn)
    (opt : RefinementOption) :
    ((refine msh edges p opt).1
        = Except.error RefineError.unsupportedTopology
      ↔ is_simplex msh.cell_type = false)
    ∧ (is_simplex msh.cell_type = false →
        refine msh edges p opt
          = (Except.error RefineError.unsupportedTopology, [])) := by
  cases hb : is_simplex msh.cell_type <;> simp [refine, hb]

/-- Witness for claim C1: at a concrete quadrilateral mesh the driver
returns the unsupported-topology error with an empty step list. -/
theorem refine_unsupported_topology_check_witness :
    refine quadMesh Option.none Option.none RefinementOption.none
      = (Except.error RefineError.unsupportedTopology, []) :=
  (refine_unsupported_topology_check quadMesh Option.none Option.none
    RefinementOption.none).2 (by decide)

/-- Claim C3: calling refine with the edges argument absent computes
the refinement data as if every edge of the mesh were marked (uniform
refinement), for every mesh, partitioner and provenance option. -/
theorem refine_uniform_when_edges_absent (msh : Mesh)
    (p : Option PartitionFn) (opt : RefinementOption) :
    refine msh Option.none p opt
      = refine msh (Option.some (List.range msh.num_edges)) p opt := rfl

/-- Claim C7: the driver selects the refinement rule set exactly once,
from the cell type alone: interval rules exactly when the cell type is
interval, and plaza rules exactly for the remaining simplex cell types
(triangle, tetrahedron). -/
theorem refine_rule_selection (msh : Mesh) (edges : Option (List Nat))
    (p : Option PartitionFn) (opt : RefinementOption)
    (h : is_simplex msh.cell_type = true) :
    ∃ r, (refine msh edges p opt).1 = Except.ok r
      ∧ r.data.rules = refine_rules_for msh.cell_type
      ∧ (r.data.rules = RuleSet.interval
          ↔ msh.cell_type = CellType.interval)
      ∧ (r.data.rules = RuleSet.plaza
          ↔ (msh.cell_type = CellType.triangle
             ∨ msh.cell_type = CellType.tetrahedron)) := by
  refine ⟨refine_ok_result msh edges p opt, by simp [refine, h], rfl, ?_, ?_⟩ <;>
  · obtain ⟨ct, gm, co, cm, ne⟩ := msh
    revert h
    cases ct <;>
      simp [is_simplex, refine_rules_for, refine_ok_result,
        compute_refinement_data]

/-- Witness for claim C7: at a concrete interval mesh the interval
rules are selected. -/
theorem refine_rule_selection_witness :
    ∃ r, (refine intervalMesh Option.none Option.none
            RefinementOption.none).1 = Except.ok r
      ∧ r.data.rules = refine_rules_for intervalMesh.cell_type
      ∧ (r.data.rules = RuleSet.interval
          ↔ intervalMesh.cell_type = CellType.interval)
      ∧ (r.data.rules = RuleSet.plaza
          ↔ (intervalMesh.cell_type = CellType.triangle
             ∨ intervalMesh.cell_type = CellType.tetrahedron)) :=
  refine_rule_selection intervalMesh Option.none Option.none
    RefinementOption.none (by decide)

/-- Claim C6: the returned parent-cell array is present exactly when
the provenance option selects parent cells, and the returned
parent-facet array is present exactly when the option selects parent
facets; selected arrays are always computed, never skipped. -/
theorem refine_provenance_option (msh : Mesh) (edges : Option (List Nat))
    (p : Option PartitionFn) (opt : RefinementOption)
    (h : is_simplex msh.cell_type = true) :
    ∃ r, (refine msh edges p opt).1 = Except.ok r
      ∧ r.parent_cell.isSome = selects_parent_cell opt
      ∧ r.parent_facet.isSome = selects_parent_facet opt := by
  refine ⟨refine_ok_result msh edges p opt, by simp [refine, h], ?_, ?_⟩
  · cases hsc : selects_parent_cell opt <;>
      simp [refine_ok_result, compute_refinement_data, hsc]
  · cases hsf : selects_parent_facet opt <;>
      simp [refine_ok_result, compute_refinement_data, hsf]

/-- Witness for claim C6: at a concrete triangle mesh with the
parent-cell option, the parent-cell array is present and the
parent-facet array is absent. -/
theorem refine_provenance_option_witness :
    ∃ r, (refine triMesh Option.none Option.none
            RefinementOption.parent_cell).1 = Except.ok r
      ∧ r.parent_cell.isSome
          = selects_parent_cell RefinementOption.parent_cell
      ∧ r.parent_facet.isSome
          = selects_parent_facet RefinementOption.parent_cell :=
  refine_provenance_option triMesh Option.none Option.none
    RefinementOption.parent_cell (by decide)

/-- Claim C9: refine takes the input mesh by const reference and never
modifies it (the embedding is a pure function of the input mesh), and
the output mesh is constructed on the same communicator and with the
same coordinate element as the input mesh. -/
theorem refine_preserves_comm_and_cmap (msh : Mesh)
    (edges : Option (List Nat)) (p : Option PartitionFn)
    (opt : RefinementOption) (h : is_simplex msh.cell_type = true) :
    ∃ r, (refine msh edges p opt).1 = Except.ok r
      ∧ r.mesh_comm = msh.comm
      ∧ r.mesh_cmap = msh.cmap :=
  ⟨refine_ok_result msh edges p opt, by simp [refine, h], rfl, rfl⟩

/-- Witness for claim C9: at a concrete triangle mesh the output mesh
communicator and coordinate element equal the input ones. -/
theorem refine_preserves_comm_and_cmap_witness :
    ∃ r, (refine triMesh Option.none Option.none
            RefinementOption.none).1 = Except.ok r
      ∧ r.mesh_comm = triMesh.comm
      ∧ r.mesh_cmap = triMesh.cmap :=
  refine_preserves_comm_and_cmap triMesh Option.none Option.none
    RefinementOption.none (by decide)

/-- Claim C8: for a mesh with ghost mode none, the partitioner returned
by create_maintain_coarse_partitioner assigns exactly one destination
to each cell, with offsets 0, 1, ..., num_cells, every destination
equal to the rank of the calling worker, and num_cells the length of
the first cell batch divided by the vertex count of the first cell
type. -/
theorem maintain_coarse_partitioner_ghost_none_spec (msh : Mesh)
    (rank nparts : Nat) (ct : CellType) (cts : List CellType)
    (c : List Nat) (cs : List (List Nat))
    (h : msh.ghost_mode = GhostMode.none) :
    ∃ adj,
      create_maintain_coarse_partitioner msh rank nparts (ct :: cts)
          (c :: cs) = Option.some adj
      ∧ adj.offsets = List.range (c.length / num_cell_vertices ct + 1)
      ∧ adj.array = List.replicate (c.length / num_cell_vertices ct) rank
      ∧ adj.array.length = c.length / num_cell_vertices ct
      ∧ ∀ d ∈ adj.array, d = rank := by
  refine
    ⟨{ array := List.replicate (c.length / num_cell_vertices ct) rank
     , offsets := List.range (c.length / num_cell_vertices ct + 1) },
     ?_, rfl, rfl, ?_, ?_⟩
  · simp [create_maintain_coarse_partitioner, h, maintain_coarse_ghost_none]
  · simp
  · intro d hd
    exact List.eq_of_mem_replicate hd

/-- Witness for claim C8: at a concrete two-triangle batch on rank 5
the partitioner assigns both cells to rank 5 with offsets 0, 1, 2. -/
theorem maintain_coarse_partitioner_ghost_none_spec_witness :
    ∃ adj,
      create_maintain_coarse_partitioner triMesh 5 4
          (CellType.triangle :: []) ([0, 1, 2, 3, 4, 5] :: [])
        = Option.some adj
      ∧ adj.offsets
          = List.range
              ((List.length [0, 1, 2, 3, 4, 5])
                  / num_cell_vertices CellType.triangle + 1)
      ∧ adj.array
          = List.replicate
              ((List.length [0, 1, 2, 3, 4, 5])
                  / num_cell_vertices CellType.triangle) 5
      ∧ adj.array.length
          = (List.length [0, 1, 2, 3, 4, 5])
              / num_cell_vertices CellType.triangle
      ∧ ∀ d ∈ adj.array, d = 5 :=
  maintain_coarse_partitioner_ghost_none_spec triMesh 5 4
    CellType.triangle [] [0, 1, 2, 3, 4, 5] [] rfl

/-- Claim C10 (counterexample to the claim as stated): the claim also
asserts that the default fallback inside refine reads only the first
entry of the cells argument and ignores all further batches; but the
fallback at refine.h line 123 builds its adjacency list from the entire
cells vector, so its result changes when a batch beyond the first
changes. -/
theorem fallback_reads_beyond_front :
    ¬ (fallback_built_adjacency [[0, 1, 2], [3, 4, 5]]
        = fallback_built_adjacency [[0, 1, 2], [9, 9, 9]]) := by decide

/-- Claim C10 (amended): the two partitioner closures built by
create_maintain_coarse_partitioner read only the front elements of the
cell_types and cells arguments, ignoring all further batches, and they
have no defined result when either list is empty (the front access of
the source has no defined result there). -/
theorem maintain_coarse_closures_read_only_front :
    (∀ (rank : Nat) (ct : CellType) (cts cts2 : List CellType)
        (c : List Nat) (cs cs2 : List (List Nat)),
      maintain_coarse_ghost_none rank (ct :: cts) (c :: cs)
          = maintain_coarse_ghost_none rank (ct :: cts2) (c :: cs2)
      ∧ maintain_coarse_ghosted rank (ct :: cts) (c :: cs)
          = maintain_coarse_ghosted rank (ct :: cts2) (c :: cs2))
    ∧ (∀ (rank : Nat) (cells : List (List Nat)),
        maintain_coarse_ghost_none rank [] cells = Option.none
        ∧ maintain_coarse_ghosted rank [] cells = Option.none)
    ∧ (∀ (rank : Nat) (cell_types : List CellType),
        maintain_coarse_ghost_none rank cell_types [] = Option.none
        ∧ maintain_coarse_ghosted rank cell_types [] = Option.none) := by
  refine ⟨fun rank ct cts cts2 c cs cs2 => ⟨rfl, rfl⟩,
    fun rank cells => ?_, fun rank cell_types => ?_⟩
  · cases cells <;> exact ⟨rfl, rfl⟩
  · cases cell_types <;> exact ⟨rfl, rfl⟩

/-- Claim C2 (evaluation of the code at the failing input): with the
partitioner argument absent, refine hands create_mesh the fallback
lambda of refine.h lines 117-124, not the keep-parent policy; the
fallback yields no destination assignment at all, while the keep-parent
closure on the same input would assign the single refined cell batch
entry to the rank of the calling worker. -/
theorem refine_default_is_not_keep_parent :
    (refine triMesh Option.none Option.none RefinementOption.none).1
        = Except.ok
            (refine_ok_result triMesh Option.none Option.none
              RefinementOption.none)
    ∧ (refine_ok_result triMesh Option.none Option.none
          RefinementOption.none).partitioner_used
        = PartitionerUsed.fallbackComputeDestinationRanks
    ∧ refine_default_fallback 0 1 [CellType.triangle] [[0, 1, 2]]
        = Option.none
    ∧ maintain_coarse_ghost_none 0 [CellType.triangle] [[0, 1, 2]]
        = Option.some { array := [0], offsets := [0, 1] } :=
  ⟨rfl, rfl, rfl, by decide⟩

/-- Claim C5 (evaluation of the code at the failing input): on a
ghosted input mesh with the partitioner argument absent, refine uses
the fallback lambda of refine.h lines 117-124, whose result differs
from the documented ghost-dropping keep-parent partitioner that
create_maintain_coarse_partitioner builds for the same mesh and
arguments. -/
theorem refine_default_path_on_ghosted_mesh :
    (refine ghostedTetMesh Option.none Option.none
        RefinementOption.none).1
        = Except.ok
            (refine_ok_result ghostedTetMesh Option.none Option.none
              RefinementOption.none)
    ∧ (refine_ok_result ghostedTetMesh Option.none Option.none
          RefinementOption.none).partitioner_used
        = PartitionerUsed.fallbackComputeDestinationRanks
    ∧ refine_default_fallback 1 2 [CellType.tetrahedron] [[0, 1, 2, 3]]
        ≠ create_maintain_coarse_partitioner ghostedTetMesh 1 2
            [CellType.tetrahedron] [[0, 1, 2, 3]] :=
  ⟨rfl, rfl, by decide⟩

/-- Claim C4: the global vertex count of the refined mesh equals the
old global vertex count plus the number of distinct globally marked
edges; the renumbering assigns exactly one midpoint to each distinct
marked edge, the assigned indices are pairwise distinct (no duplicate
midpoints), and every marked edge receives exactly one midpoint (none
missing). -/
theorem refined_vertex_count_law (n : Nat) (marked : List (Nat × Nat)) :
    new_vertex_count n marked = n + (assign_new_vertices n marked).length
    ∧ List.map Prod.fst (assign_new_vertices n marked)
        = distinct_marked_edges marked
    ∧ (List.map Prod.snd (assign_new_vertices n marked)).Nodup
    ∧ ∀ e ∈ marked,
        (List.map Prod.fst (assign_new_vertices n marked)).countP
            (fun q => q = norm_edge e) = 1 := by
  have hfst : List.map Prod.fst (assign_new_vertices n marked)
      = distinct_marked_edges marked := by
    unfold assign_new_vertices
    rw [List.map_map]
    have hc : (Prod.fst ∘ fun p : Nat × (Nat × Nat) => (p.2, n + p.1))
        = Prod.snd := rfl
    rw [hc, List.enum_map_snd]
  have hsnd : List.map Prod.snd (assign_new_vertices n marked)
      = List.map (fun i => n + i)
          (List.range (distinct_marked_edges marked).length) := by
    unfold assign_new_vertices
    rw [List.map_map]
    have hc : (Prod.snd ∘ fun p : Nat × (Nat × Nat) => (p.2, n + p.1))
        = (fun i => n + i) ∘ Prod.fst := rfl
    rw [hc, ← List.map_map, List.enum_map_fst]
  refine ⟨?_, hfst, ?_, ?_⟩
  · simp [new_vertex_count, assign_new_vertices]
  · rw [hsnd]
    exact (List.nodup_range _).map (fun a b hab => Nat.add_left_cancel hab)
  · intro e he
    rw [hfst]
    unfold distinct_marked_edges
    show @List.count (Nat × Nat) instBEqOfDecidableEq (norm_edge e)
        (marked.map norm_edge).dedup = 1
    exact List.count_eq_one_of_mem (List.nodup_dedup (marked.map norm_edge))
      (List.mem_dedup.mpr (List.mem_map_of_mem norm_edge he))

/-- Witness for claim C4: with 3 old vertices and the marked edge list
[(0,1), (1,0), (1,2)] (the first edge reported twice in its two
orientations), the edge (1,0) receives exactly one midpoint. -/
theorem refined_vertex_count_law_witness :
    (List.map Prod.fst
        (assign_new_vertices 3 [(0, 1), (1, 0), (1, 2)])).countP
        (fun q => q = norm_edge (1, 0)) = 1 :=
  (refined_vertex_count_law 3 [(0, 1), (1, 0), (1, 2)]).2.2.2 (1, 0)
    (by decide)

end DolfinxRefinement
